import Mathlib

set_option autoImplicit false

namespace Ancy

/-- JSON values, as produced by decoding the response body. Object keys are
assumed distinct, which holds for every document the remote API produces. -/
inductive Json where
  | null
  | bool (b : Bool)
  | num (n : Int)
  | str (s : String)
  | arr (elems : List Json)
  | obj (fields : List (String × Json))

/-- A chat turn: a dict with keys role and content. The content is an arbitrary
value (Json) because the assistant reply appended by main is whatever the API
extraction returned; user and system turns always carry strings. -/
structure Msg where
  role : String
  content : Json

/-- Endpoint URL (src/ancy.py line 18). -/
def GROQ_API_URL : String := "https://api.groq.com/openai/v1/chat/completions"

/-- Model name constant (src/ancy.py line 19). -/
def MODEL_NAME : String := "llama3-8b-8192"

/-- The fixed system preamble (src/ancy.py lines 23-36), verbatim including the
leading and trailing newline of the triple-quoted literal. -/
def SYSTEM_PROMPT : String :=
  "\nYou are Ancy, a warm and inspiring AI travel guide with a poetic soul and adventurous spirit.\n\nYour characteristics:\n- Speak with beautiful, flowing language and travel metaphors\n- Always remain enthusiastic, encouraging, and wise\n- Offer detailed advice about destinations, travel tips, cultural insights, and emotional support\n- Use vivid imagery of places, journeys, and discoveries in your responses\n- Be inspiring and uplifting while providing practical, actionable travel wisdom\n- Share stories and insights that make travelers feel excited about their journeys\n- Keep responses engaging but focused (3-6 sentences typically)\n\nRemember: You are a companion for wanderers, dreamers, and adventurers on their life journeys.\n"

/-- The preamble turn placed first in every request payload. -/
def systemTurn : Msg := ⟨"system", .str SYSTEM_PROMPT⟩

/-- The new user turn appended last to the request payload. -/
def userTurn (u : String) : Msg := ⟨"user", .str u⟩

/-- Python slice l[-n:]: the last min(n, len(l)) elements. -/
def lastSlice (n : Nat) (l : List Msg) : List Msg := l.drop (l.length - n)

/-- The messages list built in _make_api_request (src/ancy.py lines 53-59):
system preamble, then conversation_history[-10:], then the new user turn. -/
def buildMessages (user_message : String) (conversation_history : List Msg) : List Msg :=
  systemTurn :: lastSlice 10 conversation_history ++ [userTurn user_message]

/-- The JSON request body (src/ancy.py lines 61-67). -/
structure Payload where
  model : String
  messages : List Msg
  max_tokens : Nat
  temperature : Rat
  stream : Bool

/-- One outbound HTTP POST: url, Authorization header value, JSON body. -/
structure Request where
  url : String
  bearer : String
  payload : Payload

/-- The request issued by _make_api_request for a given key, message, history. -/
def requestOf (apiKey : String) (user_message : String) (conversation_history : List Msg) :
    Request :=
  ⟨GROQ_API_URL, "Bearer " ++ apiKey,
    ⟨MODEL_NAME, buildMessages user_message conversation_history, 1000, 4 / 5, false⟩⟩

/-- Python exceptions that subscripting a decoded JSON value can raise. For
KeyError the stored string is already the repr form that str(e) prints. -/
inductive PyExc where
  | keyError (key : String)
  | indexError (msg : String)
  | typeError (msg : String)

/-- str(e) for the exceptions above. -/
def excStr : PyExc → String
  | .keyError k => k
  | .indexError m => m
  | .typeError m => m

/-- Python repr of a string key, as str(KeyError(k)) prints it. -/
def reprKey (k : String) : String := "\x27" ++ k ++ "\x27"

/-- First-match association lookup; keys are distinct so this is dict lookup. -/
def lookupField : List (String × Json) → String → Option Json
  | [], _ => none
  | (k, v) :: rest, key => if k = key then some v else lookupField rest key

/-- Python value["key"]: KeyError on a dict without the key, TypeError on
non-dict values. -/
def subscriptStr : Json → String → Except PyExc Json
  | .obj fields, key =>
    match lookupField fields key with
    | some v => Except.ok v
    | none => Except.error (.keyError (reprKey key))
  | .arr _, _ => Except.error (.typeError "list indices must be integers or slices, not str")
  | .str _, _ => Except.error (.typeError "string indices must be integers")
  | _, _ => Except.error (.typeError "object is not subscriptable")

/-- Python value[i] for a natural index: IndexError past the end of a list,
KeyError on a dict (JSON dicts have only string keys), TypeError otherwise. -/
def subscriptNat : Json → Nat → Except PyExc Json
  | .arr xs, i =>
    match xs[i]? with
    | some v => Except.ok v
    | none => Except.error (.indexError "list index out of range")
  | .obj _, i => Except.error (.keyError (toString i))
  | .str s, i =>
    if i < s.length then Except.ok (.str (String.mk [s.data.getD i ' ']))
    else Except.error (.indexError "string index out of range")
  | _, _ => Except.error (.typeError "object is not subscriptable")

/-- result["choices"][0]["message"]["content"] (src/ancy.py line 79). -/
def extractContent (j : Json) : Except PyExc Json := do
  let choices ← subscriptStr j "choices"
  let first ← subscriptNat choices 0
  let message ← subscriptStr first "message"
  subscriptStr message "content"

/-- An HTTP response as far as the code observes it: status code, reason phrase,
and the decoded body (none when the body is not valid JSON). -/
structure HttpResponse where
  statusCode : Nat
  reason : String
  body : Option Json

/-- Outcome of the requests.post call. -/
inductive RequestOutcome where
  | response (resp : HttpResponse)
  | connectionError
  | timeout
  | otherException (msg : String)

/-- Error strings returned by _make_api_request (src/ancy.py lines 81-102). -/
def AUTH_ERROR_MSG : String :=
  "🔑 Authentication failed. Please check your Groq API key in .env file."

/-- Rate-limit message for HTTP 429. -/
def RATE_LIMIT_MSG : String :=
  "⏳ Rate limit reached. Please wait a moment before trying again."

/-- Generic API-error message, interpolating the status code and str(e). -/
def apiErrorMsg (code : Nat) (e : String) : String :=
  "🚫 API error (" ++ toString code ++ "): " ++ e

/-- Connectivity message. -/
def CONNECTION_ERROR_MSG : String :=
  "🌐 Connection error. Please check your internet connection."

/-- Timeout message. -/
def TIMEOUT_ERROR_MSG : String :=
  "⏰ Request timed out. The API might be busy, please try again."

/-- Malformed-response message for a body that is not valid JSON. -/
def INVALID_JSON_MSG : String := "📄 Invalid response format from API."

/-- Missing-field message, interpolating str(e) of the KeyError. -/
def missingFieldMsg (k : String) : String :=
  "🔍 Unexpected response structure: missing " ++ k

/-- Catch-all message, interpolating str(e). -/
def unexpectedErrorMsg (e : String) : String := "❌ Unexpected error: " ++ e

/-- Fixed whimsical prompt returned by chat on empty input (src/ancy.py 107). -/
def EMPTY_INPUT_MSG : String :=
  "🤔 I sense the quiet before an adventure... What\x27s stirring in your traveler\x27s heart?"

/-- str(e) of the HTTPError that response.raise_for_status() raises, in the
format the requests library uses for 4xx and 5xx status codes. -/
def httpErrorStr (resp : HttpResponse) : String :=
  if resp.statusCode < 500 then
    toString resp.statusCode ++ " Client Error: " ++ resp.reason ++ " for url: " ++ GROQ_API_URL
  else
    toString resp.statusCode ++ " Server Error: " ++ resp.reason ++ " for url: " ++ GROQ_API_URL

/-- What _make_api_request does once a response arrives (src/ancy.py 76-102):
raise_for_status fires exactly on 4xx/5xx and is mapped by status; otherwise
the body is decoded and the nested field extracted, with JSONDecodeError,
KeyError and every remaining exception mapped to their message strings. -/
def handleResponse (resp : HttpResponse) : Json :=
  if 400 ≤ resp.statusCode ∧ resp.statusCode < 600 then
    if resp.statusCode = 401 then .str AUTH_ERROR_MSG
    else if resp.statusCode = 429 then .str RATE_LIMIT_MSG
    else .str (apiErrorMsg resp.statusCode (httpErrorStr resp))
  else
    match resp.body with
    | none => .str INVALID_JSON_MSG
    | some j =>
      match extractContent j with
      | .ok v => v
      | .error (.keyError k) => .str (missingFieldMsg k)
      | .error e => .str (unexpectedErrorMsg (excStr e))

/-- The chatbot object; __init__ stores the key (src/ancy.py lines 41-43). -/
structure AncyTravelGuide where
  api_key : String

/-- _make_api_request (src/ancy.py lines 45-102): returns the resulting value
together with the single request it issues. ConnectionError, Timeout and any
other exception from the post call map to their message strings. -/
def make_api_request (ancy : AncyTravelGuide) (user_message : String)
    (conversation_history : List Msg) (outcome : RequestOutcome) : Json × List Request :=
  (match outcome with
   | .response resp => handleResponse resp
   | .connectionError => .str CONNECTION_ERROR_MSG
   | .timeout => .str TIMEOUT_ERROR_MSG
   | .otherException e => .str (unexpectedErrorMsg e),
   [requestOf ancy.api_key user_message conversation_history])

/-- Python str.strip(): remove leading and trailing whitespace characters. -/
def pyStrip (s : String) : String :=
  String.mk (((s.data.dropWhile Char.isWhitespace).reverse.dropWhile Char.isWhitespace).reverse)

/-- chat (src/ancy.py lines 104-109): empty stripped input short-circuits to the
fixed prompt with no request; otherwise delegates to _make_api_request. -/
def chat (ancy : AncyTravelGuide) (user_input : String)
    (conversation_history : List Msg) (outcome : RequestOutcome) : Json × List Request :=
  if pyStrip user_input = "" then (.str EMPTY_INPUT_MSG, [])
  else make_api_request ancy user_input conversation_history outcome

/-- validate_api_key (src/ancy.py lines 111-113), over an optional key so the
absent (None) case is covered; the Python truthiness chain rejects None and
the empty string. -/
def validate_api_key : Option String → Bool
  | none => false
  | some s => !(s == "") && !(s == "YOUR_GROQ_API_KEY_HERE") && decide (10 < s.length)

/-- The submission handler in main (src/ancy.py lines 325-338): on a submitted
non-empty input, append the user turn to the stored messages, call chat with
that same appended list, then append the assistant turn. Returns the new
stored messages and the requests issued. -/
def handleSubmission (ancy : AncyTravelGuide) (stored : List Msg) (user_input : String)
    (submit : Bool) (outcome : RequestOutcome) : List Msg × List Request :=
  if submit = true ∧ user_input ≠ "" then
    let appended := stored ++ [userTurn user_input]
    let result := chat ancy user_input appended outcome
    (appended ++ [⟨"assistant", result.1⟩], result.2)
  else (stored, [])

/-- Error banner shown by main when the key is missing or invalid. -/
def SETUP_ERROR_MSG : String := "❌ Groq API key not found or invalid!"

/-- Python truthiness of the optional GROQ_API_KEY value. -/
def keyTruthy : Option String → Bool
  | none => false
  | some s => !(s == "")

/-- Result of one run of main: either halted at the startup key check before
any interaction, or finished with the constructed client, the stored messages
and the requests issued. -/
inductive RunOutcome where
  | halted (message : String)
  | finished (ancy : AncyTravelGuide) (messages : List Msg) (requests : List Request)

/-- Requests issued during the run; a halted run issued none. -/
def RunOutcome.requestsIssued : RunOutcome → List Request
  | .halted _ => []
  | .finished _ _ reqs => reqs

/-- main (src/ancy.py lines 261-338), reduced to the claimed behaviour: the key
check `if not GROQ_API_KEY or not validate_api_key(GROQ_API_KEY)` halts via
st.stop() before the client is constructed; otherwise the client is built and
one submission is handled. The none branch under the match is unreachable
because keyTruthy none is false. -/
def runMain (key : Option String) (stored : List Msg) (user_input : String)
    (submit : Bool) (outcome : RequestOutcome) : RunOutcome :=
  if !(keyTruthy key) || !(validate_api_key key) then .halted SETUP_ERROR_MSG
  else
    match key with
    | none => .halted SETUP_ERROR_MSG
    | some k =>
      let ancy : AncyTravelGuide := ⟨k⟩
      let result := handleSubmission ancy stored user_input submit outcome
      .finished ancy result.1 result.2

/-- The mapped human-readable message strings of the error taxonomy, one
constructor per handler in _make_api_request (src/ancy.py lines 81-102). -/
inductive MappedError : Json → Prop
  | auth : MappedError (.str AUTH_ERROR_MSG)
  | rate : MappedError (.str RATE_LIMIT_MSG)
  | api (code : Nat) (e : String) : MappedError (.str (apiErrorMsg code e))
  | conn : MappedError (.str CONNECTION_ERROR_MSG)
  | timedOut : MappedError (.str TIMEOUT_ERROR_MSG)
  | badJson : MappedError (.str INVALID_JSON_MSG)
  | missing (k : String) : MappedError (.str (missingFieldMsg k))
  | unexpected (e : String) : MappedError (.str (unexpectedErrorMsg e))

/-- A heap of Python list objects, used to state the frame property of the
payload construction: addresses are indices, cells hold message lists. -/
abbrev Heap := List (List Msg)

/-- Read the list object at an address. -/
def readCell (h : Heap) (a : Nat) : List Msg := h.getD a []

/-- Allocate a fresh list object (a Python list display) at a fresh address. -/
def allocCell (h : Heap) (v : List Msg) : Heap × Nat := (h ++ [v], h.length)

/-- list.extend / list.append: mutate the cell at an address in place. -/
def extendCell (h : Heap) (a : Nat) (vs : List Msg) : Heap :=
  h.set a (readCell h a ++ vs)

/-- The statement sequence of src/ancy.py lines 53-59 at the heap level:
messages = [system]; messages.extend(conversation_history[-10:]);
messages.append(user turn). The history cell is only read (sliced), never
written. Returns the final heap and the address of the messages list. -/
def buildMessagesOps (h : Heap) (histAddr : Nat) (u : String) : Heap × Nat :=
  let alloc := allocCell h [systemTurn]
  let h1 := alloc.1
  let m := alloc.2
  let h2 := extendCell h1 m (lastSlice 10 (readCell h1 histAddr))
  let h3 := extendCell h2 m [userTurn u]
  (h3, m)

/-- Bind on a successful Except value applies the continuation. -/
theorem except_bind_ok (a : Json) (f : Json → Except PyExc Json) :
    (Except.ok a : Except PyExc Json) >>= f = f a := rfl

/-- Bind on a failed Except value propagates the exception. -/
theorem except_bind_error (e : PyExc) (f : Json → Except PyExc Json) :
    (Except.error e : Except PyExc Json) >>= f = Except.error e := rfl

/-- String append acts on the underlying character lists. -/
theorem data_append (a b : String) : (a ++ b).data = a.data ++ b.data := by
  cases a
  cases b
  rfl

/-- The generic unexpected-error string never coincides with a missing-field
string: their first characters differ. -/
theorem unexpected_ne_missing (e k : String) :
    unexpectedErrorMsg e ≠ missingFieldMsg k := by
  intro h
  have hd : "❌ Unexpected error: ".data ++ e.data
      = "🔍 Unexpected response structure: missing ".data ++ k.data := by
    have h2 := congrArg String.data h
    rw [unexpectedErrorMsg, missingFieldMsg, data_append, data_append] at h2
    exact h2
  have hh := congrArg List.head? hd
  rw [show ("❌ Unexpected error: ".data ++ e.data).head? = some '❌' from rfl,
      show ("🔍 Unexpected response structure: missing ".data ++ k.data).head?
        = some '🔍' from rfl] at hh
  exact absurd (Option.some.inj hh) (by decide)

/-- C1: for every history and every user_text whose stripped form is non-empty,
the messages list of the outgoing request payload equals the fixed system
preamble turn, then the last min(10, len(history)) entries of history verbatim
and in order (a suffix of history), then the new user turn; for histories of
length at most 10 the middle portion is the whole history, and for longer
histories it is exactly the last 10 entries. -/
theorem chat_payload_messages (ancy : AncyTravelGuide) (user_text : String)
    (history : List Msg) (outcome : RequestOutcome)
    (h : pyStrip user_text ≠ "") :
    ∃ mid : List Msg,
      (chat ancy user_text history outcome).2
          = [requestOf ancy.api_key user_text history]
      ∧ (requestOf ancy.api_key user_text history).payload.messages
          = systemTurn :: mid ++ [userTurn user_text]
      ∧ mid.length = min 10 history.length
      ∧ mid <:+ history
      ∧ (history.length ≤ 10 → mid = history)
      ∧ (10 < history.length →
          mid = history.drop (history.length - 10) ∧ mid.length = 10) := by
  refine ⟨lastSlice 10 history, ?_, rfl, ?_, List.drop_suffix _ _, ?_, ?_⟩
  · simp [chat, h, make_api_request]
  · simp only [lastSlice, List.length_drop]
    omega
  · intro h10
    simp [lastSlice, Nat.sub_eq_zero_of_le h10]
  · intro h10
    refine ⟨rfl, ?_⟩
    simp only [lastSlice, List.length_drop]
    omega

/-- Witness for C1 at a concrete non-empty input and a one-turn history. -/
theorem chat_payload_messages_witness :
    pyStrip "hello" ≠ "" ∧
    ∃ mid : List Msg,
      (chat ⟨"secretkey123"⟩ "hello" [⟨"user", Json.str "hi"⟩]
          RequestOutcome.connectionError).2
          = [requestOf "secretkey123" "hello" [⟨"user", Json.str "hi"⟩]]
      ∧ (requestOf "secretkey123" "hello" [⟨"user", Json.str "hi"⟩]).payload.messages
          = systemTurn :: mid ++ [userTurn "hello"]
      ∧ mid.length = min 10 [(⟨"user", Json.str "hi"⟩ : Msg)].length
      ∧ mid <:+ [⟨"user", Json.str "hi"⟩]
      ∧ ([(⟨"user", Json.str "hi"⟩ : Msg)].length ≤ 10 →
          mid = [⟨"user", Json.str "hi"⟩])
      ∧ (10 < [(⟨"user", Json.str "hi"⟩ : Msg)].length →
          mid = [(⟨"user", Json.str "hi"⟩ : Msg)].drop
            ([(⟨"user", Json.str "hi"⟩ : Msg)].length - 10) ∧ mid.length = 10) :=
  ⟨by decide,
   chat_payload_messages ⟨"secretkey123"⟩ "hello" [⟨"user", Json.str "hi"⟩]
     RequestOutcome.connectionError (by decide)⟩

/-- C3: for every user_text whose stripped form is empty, chat returns the
fixed whimsical prompt string and issues no request, whatever the history and
whatever the network would have done. -/
theorem chat_empty_input (ancy : AncyTravelGuide) (user_input : String)
    (history : List Msg) (outcome : RequestOutcome)
    (h : pyStrip user_input = "") :
    chat ancy user_input history outcome = (.str EMPTY_INPUT_MSG, []) := by
  simp [chat, h]

/-- Witness for C3 at the whitespace-only input of the spec. -/
theorem chat_empty_input_witness :
    pyStrip "   " = "" ∧
    chat ⟨"secretkey123"⟩ "   " [⟨"user", Json.str "x"⟩] RequestOutcome.timeout
      = (Json.str EMPTY_INPUT_MSG, []) :=
  ⟨by decide,
   chat_empty_input ⟨"secretkey123"⟩ "   " [⟨"user", Json.str "x"⟩]
     RequestOutcome.timeout (by decide)⟩

/-- C9: validate_api_key accepts exactly the present keys that are non-empty,
differ from the placeholder, and have length strictly greater than 10. -/
theorem validate_api_key_iff (api_key : Option String) :
    validate_api_key api_key = true ↔
      ∃ s, api_key = some s ∧ s ≠ "" ∧ s ≠ "YOUR_GROQ_API_KEY_HERE"
        ∧ 10 < s.length := by
  cases api_key with
  | none => simp [validate_api_key]
  | some s => simp [validate_api_key, and_assoc]

/-- C4: an HTTP error response (status 4xx or 5xx) maps by status: 401 to the
authentication-failure message, 429 to the rate-limit message, and any other
error status to the generic API-error message, which contains the status code;
the call returns the string rather than raising. -/
theorem http_error_mapping (ancy : AncyTravelGuide) (u : String) (hist : List Msg)
    (resp : HttpResponse) (h4 : 400 ≤ resp.statusCode) (h6 : resp.statusCode < 600) :
    (resp.statusCode = 401 →
      (make_api_request ancy u hist (.response resp)).1 = .str AUTH_ERROR_MSG)
    ∧ (resp.statusCode = 429 →
      (make_api_request ancy u hist (.response resp)).1 = .str RATE_LIMIT_MSG)
    ∧ (resp.statusCode ≠ 401 → resp.statusCode ≠ 429 →
      (make_api_request ancy u hist (.response resp)).1
          = .str (apiErrorMsg resp.statusCode (httpErrorStr resp))
      ∧ ∃ pre post, apiErrorMsg resp.statusCode (httpErrorStr resp)
          = pre ++ toString resp.statusCode ++ post) := by
  refine ⟨?_, ?_, ?_⟩
  · intro h
    simp [make_api_request, handleResponse, h]
  · intro h
    simp [make_api_request, handleResponse, h]
  · intro h1 h2
    refine ⟨by simp [make_api_request, handleResponse, h4, h6, h1, h2], ?_⟩
    refine ⟨"🚫 API error (", "): " ++ httpErrorStr resp, ?_⟩
    simp [apiErrorMsg, String.append_assoc]

/-- Witness for C4 at a concrete 404 response. -/
theorem http_error_mapping_witness :
    (400 : Nat) ≤ 404 ∧ (404 : Nat) < 600 ∧
    (((404 : Nat) = 401 →
      (make_api_request ⟨"secretkey123"⟩ "hi" []
          (.response ⟨404, "Not Found", none⟩)).1 = .str AUTH_ERROR_MSG)
    ∧ ((404 : Nat) = 429 →
      (make_api_request ⟨"secretkey123"⟩ "hi" []
          (.response ⟨404, "Not Found", none⟩)).1 = .str RATE_LIMIT_MSG)
    ∧ ((404 : Nat) ≠ 401 → (404 : Nat) ≠ 429 →
      (make_api_request ⟨"secretkey123"⟩ "hi" []
          (.response ⟨404, "Not Found", none⟩)).1
          = .str (apiErrorMsg 404 (httpErrorStr ⟨404, "Not Found", none⟩))
      ∧ ∃ pre post, apiErrorMsg 404 (httpErrorStr ⟨404, "Not Found", none⟩)
          = pre ++ toString (404 : Nat) ++ post)) :=
  ⟨by decide, by decide,
   http_error_mapping ⟨"secretkey123"⟩ "hi" [] ⟨404, "Not Found", none⟩
     (by decide) (by decide)⟩

/-- C5: a successful 2xx response whose decoded JSON body contains the nested
choices[0].message.content field yields that field verbatim, unaltered. -/
theorem success_returns_content (ancy : AncyTravelGuide) (u : String)
    (hist : List Msg) (resp : HttpResponse) (j v : Json)
    (h2 : 200 ≤ resp.statusCode) (h3 : resp.statusCode < 300)
    (hb : resp.body = some j) (hx : extractContent j = Except.ok v) :
    (make_api_request ancy u hist (.response resp)).1 = v := by
  have hcond : ¬(400 ≤ resp.statusCode ∧ resp.statusCode < 600) := by omega
  simp [make_api_request, handleResponse, hcond, hb, hx]

/-- Witness for C5 at the Bonjour response of the spec. -/
theorem success_returns_content_witness :
    (200 : Nat) ≤ 200 ∧ (200 : Nat) < 300
    ∧ (some (Json.obj [("choices",
        Json.arr [Json.obj [("message", Json.obj [("content", Json.str "Bonjour!")])]])])
        : Option Json)
      = some (Json.obj [("choices",
          Json.arr [Json.obj [("message", Json.obj [("content", Json.str "Bonjour!")])]])])
    ∧ extractContent (Json.obj [("choices",
        Json.arr [Json.obj [("message", Json.obj [("content", Json.str "Bonjour!")])]])])
      = Except.ok (Json.str "Bonjour!")
    ∧ (make_api_request ⟨"secretkey123"⟩ "hi" []
        (.response ⟨200, "OK", some (Json.obj [("choices",
          Json.arr [Json.obj [("message", Json.obj [("content", Json.str "Bonjour!")])]])])⟩)).1
      = Json.str "Bonjour!" :=
  ⟨by decide, by decide, rfl, rfl,
   success_returns_content ⟨"secretkey123"⟩ "hi" []
     ⟨200, "OK", some (Json.obj [("choices",
       Json.arr [Json.obj [("message", Json.obj [("content", Json.str "Bonjour!")])]])])⟩
     (Json.obj [("choices",
       Json.arr [Json.obj [("message", Json.obj [("content", Json.str "Bonjour!")])]])])
     (Json.str "Bonjour!") (by decide) (by decide) rfl rfl⟩

/-- C2: chat is total and never raises: for every input, history and outcome of
the HTTP call, the result is the fixed empty-input prompt, one of the mapped
human-readable error message strings, or the assistant content extracted
verbatim from a successfully decoded response; no fault reaches the caller. -/
theorem chat_never_raises (ancy : AncyTravelGuide) (user_input : String)
    (history : List Msg) (outcome : RequestOutcome) :
    (chat ancy user_input history outcome).1 = .str EMPTY_INPUT_MSG
    ∨ MappedError (chat ancy user_input history outcome).1
    ∨ ∃ resp j, outcome = .response resp
        ∧ ¬(400 ≤ resp.statusCode ∧ resp.statusCode < 600)
        ∧ resp.body = some j
        ∧ extractContent j = Except.ok (chat ancy user_input history outcome).1 := by
  by_cases hs : pyStrip user_input = ""
  · exact Or.inl (by simp [chat, hs])
  · have hch : chat ancy user_input history outcome
        = make_api_request ancy user_input history outcome := by
      simp [chat, hs]
    rw [hch]
    right
    cases outcome with
    | connectionError => exact Or.inl .conn
    | timeout => exact Or.inl .timedOut
    | otherException e => exact Or.inl (.unexpected e)
    | response resp =>
      obtain ⟨code, reason, body⟩ := resp
      by_cases herr : 400 ≤ code ∧ code < 600
      · left
        by_cases h401 : code = 401
        · have he : (make_api_request ancy user_input history
              (.response ⟨code, reason, body⟩)).1 = .str AUTH_ERROR_MSG := by
            simp [make_api_request, handleResponse, h401]
          rw [he]; exact .auth
        · by_cases h429 : code = 429
          · have he : (make_api_request ancy user_input history
                (.response ⟨code, reason, body⟩)).1 = .str RATE_LIMIT_MSG := by
              simp [make_api_request, handleResponse, h429]
            rw [he]; exact .rate
          · have he : (make_api_request ancy user_input history
                (.response ⟨code, reason, body⟩)).1
                = .str (apiErrorMsg code (httpErrorStr ⟨code, reason, body⟩)) := by
              simp [make_api_request, handleResponse, herr.1, herr.2, h401, h429]
            rw [he]; exact .api code _
      · cases body with
        | none =>
          left
          have he : (make_api_request ancy user_input history
              (.response ⟨code, reason, none⟩)).1 = .str INVALID_JSON_MSG := by
            simp [make_api_request, handleResponse, herr]
          rw [he]; exact .badJson
        | some j =>
          cases hx : extractContent j with
          | ok v =>
            right
            refine ⟨⟨code, reason, some j⟩, j, rfl, herr, rfl, ?_⟩
            have he : (make_api_request ancy user_input history
                (.response ⟨code, reason, some j⟩)).1 = v := by
              simp [make_api_request, handleResponse, herr, hx]
            rw [he]; exact hx
          | error e =>
            left
            cases e with
            | keyError k =>
              have he : (make_api_request ancy user_input history
                  (.response ⟨code, reason, some j⟩)).1
                  = .str (missingFieldMsg k) := by
                simp [make_api_request, handleResponse, herr, hx]
              rw [he]; exact .missing k
            | indexError m =>
              have he : (make_api_request ancy user_input history
                  (.response ⟨code, reason, some j⟩)).1
                  = .str (unexpectedErrorMsg m) := by
                simp [make_api_request, handleResponse, herr, hx, excStr]
              rw [he]; exact .unexpected m
            | typeError m =>
              have he : (make_api_request ancy user_input history
                  (.response ⟨code, reason, some j⟩)).1
                  = .str (unexpectedErrorMsg m) := by
                simp [make_api_request, handleResponse, herr, hx, excStr]
              rw [he]; exact .unexpected m

/-- C6 counterexample: on a 200 response whose valid JSON body has an empty
choices list, the extraction raises IndexError rather than KeyError, so the
call returns the generic unexpected-error string, which is not the
missing-field message for any field of the extraction path. -/
theorem missing_field_counterexample :
    (make_api_request ⟨"secretkey123"⟩ "hi" []
        (.response ⟨200, "OK", some (Json.obj [("choices", Json.arr [])])⟩)).1
      = Json.str (unexpectedErrorMsg "list index out of range")
    ∧ unexpectedErrorMsg "list index out of range" ≠ missingFieldMsg (reprKey "choices")
    ∧ unexpectedErrorMsg "list index out of range" ≠ missingFieldMsg (reprKey "message")
    ∧ unexpectedErrorMsg "list index out of range" ≠ missingFieldMsg (reprKey "content")
    ∧ unexpectedErrorMsg "list index out of range" ≠ missingFieldMsg "0" :=
  ⟨rfl, unexpected_ne_missing _ _, unexpected_ne_missing _ _,
   unexpected_ne_missing _ _, unexpected_ne_missing _ _⟩

/-- C6 amended: on a 2xx response with valid JSON, a dict lacking the expected
key along the choices[0].message.content path yields the missing-field message
naming that key; an empty choices list instead raises IndexError, which the
catch-all handler maps to the generic unexpected-error message. -/
theorem missing_key_mapping (ancy : AncyTravelGuide) (u : String) (hist : List Msg)
    (code : Nat) (reason : String)
    (fields mfields cfields : List (String × Json)) (rest rest2 : List Json)
    (h2 : 200 ≤ code) (h3 : code < 300)
    (hc : lookupField fields "choices" = none)
    (hm : lookupField mfields "message" = none)
    (hcn : lookupField cfields "content" = none) :
    (make_api_request ancy u hist (.response ⟨code, reason,
        some (.obj fields)⟩)).1 = .str (missingFieldMsg (reprKey "choices"))
    ∧ (make_api_request ancy u hist (.response ⟨code, reason,
        some (.obj [("choices", .arr (.obj mfields :: rest))])⟩)).1
        = .str (missingFieldMsg (reprKey "message"))
    ∧ (make_api_request ancy u hist (.response ⟨code, reason,
        some (.obj [("choices", .arr (.obj [("message", .obj cfields)] :: rest2))])⟩)).1
        = .str (missingFieldMsg (reprKey "content"))
    ∧ (make_api_request ancy u hist (.response ⟨code, reason,
        some (.obj [("choices", .arr [])])⟩)).1
        = .str (unexpectedErrorMsg "list index out of range") := by
  have hcond : ¬(400 ≤ code ∧ code < 600) := by omega
  refine ⟨?_, ?_, ?_, ?_⟩
  · have hx : extractContent (.obj fields)
        = Except.error (.keyError (reprKey "choices")) := by
      simp [extractContent, subscriptStr, hc, except_bind_ok, except_bind_error]
    simp [make_api_request, handleResponse, hcond, hx]
  · have hx : extractContent (.obj [("choices", .arr (.obj mfields :: rest))])
        = Except.error (.keyError (reprKey "message")) := by
      simp [extractContent, subscriptStr, subscriptNat, lookupField, hm,
        except_bind_ok, except_bind_error]
    simp [make_api_request, handleResponse, hcond, hx]
  · have hx : extractContent
        (.obj [("choices", .arr (.obj [("message", .obj cfields)] :: rest2))])
        = Except.error (.keyError (reprKey "content")) := by
      simp [extractContent, subscriptStr, subscriptNat, lookupField, hcn,
        except_bind_ok, except_bind_error]
    simp [make_api_request, handleResponse, hcond, hx]
  · have hx : extractContent (.obj [("choices", .arr [])])
        = Except.error (.indexError "list index out of range") := by
      simp [extractContent, subscriptStr, subscriptNat, lookupField,
        except_bind_ok, except_bind_error]
    simp [make_api_request, handleResponse, hcond, hx, excStr]

/-- Witness for the amended C6 at empty dicts and a 200 status. -/
theorem missing_key_mapping_witness :
    (200 : Nat) ≤ 200 ∧ (200 : Nat) < 300
    ∧ lookupField [] "choices" = none
    ∧ lookupField [] "message" = none
    ∧ lookupField [] "content" = none
    ∧ ((make_api_request ⟨"secretkey123"⟩ "hi" [] (.response ⟨200, "OK",
          some (.obj [])⟩)).1 = .str (missingFieldMsg (reprKey "choices"))
      ∧ (make_api_request ⟨"secretkey123"⟩ "hi" [] (.response ⟨200, "OK",
          some (.obj [("choices", .arr (.obj [] :: []))])⟩)).1
          = .str (missingFieldMsg (reprKey "message"))
      ∧ (make_api_request ⟨"secretkey123"⟩ "hi" [] (.response ⟨200, "OK",
          some (.obj [("choices", .arr (.obj [("message", .obj [])] :: []))])⟩)).1
          = .str (missingFieldMsg (reprKey "content"))
      ∧ (make_api_request ⟨"secretkey123"⟩ "hi" [] (.response ⟨200, "OK",
          some (.obj [("choices", .arr [])])⟩)).1
          = .str (unexpectedErrorMsg "list index out of range")) :=
  ⟨by decide, by decide, rfl, rfl, rfl,
   missing_key_mapping ⟨"secretkey123"⟩ "hi" [] 200 "OK" [] [] [] [] []
     (by decide) (by decide) rfl rfl rfl⟩

/-- C7: for a submitted non-empty input, main appends the user turn to the
stored conversation and passes that same appended list to chat, so the single
outgoing payload is built from the appended history; when the appended history
has at most 10 entries the payload messages are the preamble, the appended
history verbatim, and the new user turn again, so the last two messages are
both the new user turn. -/
theorem submission_appends_before_chat (ancy : AncyTravelGuide) (stored : List Msg)
    (user_input : String) (outcome : RequestOutcome)
    (h : pyStrip user_input ≠ "") :
    (handleSubmission ancy stored user_input true outcome).2
        = [requestOf ancy.api_key user_input (stored ++ [userTurn user_input])]
    ∧ ((stored ++ [userTurn user_input]).length ≤ 10 →
        (requestOf ancy.api_key user_input
            (stored ++ [userTurn user_input])).payload.messages
          = systemTurn :: (stored ++ [userTurn user_input]) ++ [userTurn user_input]
        ∧ ((requestOf ancy.api_key user_input
            (stored ++ [userTurn user_input])).payload.messages).reverse.take 2
          = [userTurn user_input, userTurn user_input]) := by
  have hne : user_input ≠ "" := by
    intro hempty
    rw [hempty] at h
    exact h rfl
  constructor
  · simp [handleSubmission, hne, chat, h, make_api_request]
  · intro hlen
    have hmsg : (requestOf ancy.api_key user_input
        (stored ++ [userTurn user_input])).payload.messages
        = systemTurn :: (stored ++ [userTurn user_input]) ++ [userTurn user_input] := by
      have hz : (stored ++ [userTurn user_input]).length - 10 = 0 :=
        Nat.sub_eq_zero_of_le hlen
      simp only [requestOf, buildMessages, lastSlice, hz, List.drop_zero]
    refine ⟨hmsg, ?_⟩
    rw [hmsg]
    simp

/-- Witness for C7 at a one-turn stored history and a concrete input. -/
theorem submission_appends_before_chat_witness :
    pyStrip "tips" ≠ "" ∧
    ((handleSubmission ⟨"secretkey123"⟩ [⟨"user", Json.str "a"⟩] "tips" true
        RequestOutcome.timeout).2
        = [requestOf "secretkey123" "tips"
            ([⟨"user", Json.str "a"⟩] ++ [userTurn "tips"])]
    ∧ (([(⟨"user", Json.str "a"⟩ : Msg)] ++ [userTurn "tips"]).length ≤ 10 →
        (requestOf "secretkey123" "tips"
            ([⟨"user", Json.str "a"⟩] ++ [userTurn "tips"])).payload.messages
          = systemTurn :: ([⟨"user", Json.str "a"⟩] ++ [userTurn "tips"])
              ++ [userTurn "tips"]
        ∧ ((requestOf "secretkey123" "tips"
            ([⟨"user", Json.str "a"⟩] ++ [userTurn "tips"])).payload.messages).reverse.take 2
          = [userTurn "tips", userTurn "tips"])) :=
  ⟨by decide,
   submission_appends_before_chat ⟨"secretkey123"⟩ [⟨"user", Json.str "a"⟩] "tips"
     RequestOutcome.timeout (by decide)⟩

/-- C8: at the heap level, building the bounded request view leaves the
conversation cell untouched: after the three statements the history cell holds
exactly what it held before, and only the freshly allocated messages cell holds
the truncated view (preamble, last ten turns, new user turn). -/
theorem conversation_unchanged (h : Heap) (histAddr : Nat) (u : String)
    (hlt : histAddr < h.length) :
    readCell (buildMessagesOps h histAddr u).1 histAddr = readCell h histAddr
    ∧ readCell (buildMessagesOps h histAddr u).1 (buildMessagesOps h histAddr u).2
        = buildMessages u (readCell h histAddr) := by
  have hne : histAddr ≠ h.length := Nat.ne_of_lt hlt
  have e1 : (buildMessagesOps h histAddr u).2 = h.length := rfl
  have e2 : (buildMessagesOps h histAddr u).1
      = extendCell (extendCell (h ++ [[systemTurn]]) h.length
          (lastSlice 10 (readCell (h ++ [[systemTurn]]) histAddr)))
          h.length [userTurn u] := rfl
  have hr1 : readCell (h ++ [[systemTurn]]) histAddr = readCell h histAddr := by
    simp [readCell, List.getD, List.getElem?_append_left hlt]
  have hm1 : readCell (h ++ [[systemTurn]]) h.length = [systemTurn] := by
    simp [readCell, List.getD, List.getElem?_concat_length]
  have frame : ∀ (x : Heap) (vs : List Msg),
      readCell (extendCell x h.length vs) histAddr = readCell x histAddr := by
    intro x vs
    simp [extendCell, readCell, List.getD, List.getElem?_set_ne (Ne.symm hne)]
  have hset : ∀ (x : Heap) (vs : List Msg), h.length < x.length →
      readCell (extendCell x h.length vs) h.length = readCell x h.length ++ vs := by
    intro x vs hx
    simp [extendCell, readCell, List.getD, List.getElem?_set_self, hx]
  have hlen1 : h.length < (h ++ [[systemTurn]]).length := by simp
  have hlen2 : h.length < (extendCell (h ++ [[systemTurn]]) h.length
      (lastSlice 10 (readCell (h ++ [[systemTurn]]) histAddr))).length := by
    simp [extendCell]
  constructor
  · rw [e2, frame, frame, hr1]
  · rw [e1, e2, hset _ _ hlen2, hset _ _ hlen1, hm1, hr1]
    simp [buildMessages]

/-- Witness for C8 at a one-cell heap holding a one-turn conversation. -/
theorem conversation_unchanged_witness :
    (0 : Nat) < [[(⟨"user", Json.str "a"⟩ : Msg)]].length ∧
    (readCell (buildMessagesOps [[⟨"user", Json.str "a"⟩]] 0 "go").1 0
        = readCell [[⟨"user", Json.str "a"⟩]] 0
    ∧ readCell (buildMessagesOps [[⟨"user", Json.str "a"⟩]] 0 "go").1
          (buildMessagesOps [[⟨"user", Json.str "a"⟩]] 0 "go").2
        = buildMessages "go" (readCell [[⟨"user", Json.str "a"⟩]] 0)) :=
  ⟨by decide, conversation_unchanged [[⟨"user", Json.str "a"⟩]] 0 "go" (by decide)⟩

/-- C10: when the configured API key is absent or fails validation, the run
halts at the startup check with the setup message: no client is constructed
and no outbound request is ever issued in that run. -/
theorem invalid_key_halts (key : Option String) (stored : List Msg)
    (user_input : String) (submit : Bool) (outcome : RequestOutcome)
    (h : validate_api_key key = false) :
    runMain key stored user_input submit outcome = .halted SETUP_ERROR_MSG
    ∧ (runMain key stored user_input submit outcome).requestsIssued = [] := by
  have hcond : (!(keyTruthy key) || !(validate_api_key key)) = true := by
    simp [h]
  constructor
  · simp [runMain, hcond]
  · simp [runMain, hcond, RunOutcome.requestsIssued]

/-- Witness for C10 at a too-short key with a submission pending. -/
theorem invalid_key_halts_witness :
    validate_api_key (some "short") = false ∧
    (runMain (some "short") [] "hello" true RequestOutcome.connectionError
        = .halted SETUP_ERROR_MSG
    ∧ (runMain (some "short") [] "hello" true
        RequestOutcome.connectionError).requestsIssued = []) :=
  ⟨by decide,
   invalid_key_halts (some "short") [] "hello" true RequestOutcome.connectionError
     (by decide)⟩

end Ancy
